import Mathlib

/-!
Verification of the session state machine, persistence and reporting logic of
the web-automation bot in bot.py. Python functions are shallowly embedded as
pure Lean functions; external nondeterminism (random draws, network and DOM
observations, exceptions raised by the browser library) is passed in as
explicit environment records. Python exceptions are modelled with Except
carrying the exception message; Python floats are modelled as rationals.
-/

namespace Bot

/-! ### Python string primitives

Core Lean string functions do not reduce in the kernel, so the Python string
operations used by bot.py (membership, split, replace, strip, lower) are
implemented here structurally over character lists. -/

/-- Boolean test that the first character list is a prefix of the second. -/
def listIsPfx : List Char → List Char → Bool
  | [], _ => true
  | _ :: _, [] => false
  | a :: as, b :: bs => a = b && listIsPfx as bs

/-- Boolean test that needle occurs contiguously inside the second list. -/
def listInfix (needle : List Char) : List Char → Bool
  | [] => listIsPfx needle []
  | c :: rest => listIsPfx needle (c :: rest) || listInfix needle rest

/-- Python substring membership, the expression needle in hay. -/
def pyIn (needle hay : String) : Bool :=
  listInfix needle.toList hay.toList

/-- Fuel-driven splitter behind pySplit; fuel at least the list length. -/
def splitFuel (sep : List Char) : Nat → List Char → List Char → List (List Char)
  | 0, l, acc => [acc.reverse ++ l]
  | fuel + 1, l, acc =>
    match l with
    | [] => [acc.reverse]
    | c :: rest =>
      if listIsPfx sep l then
        acc.reverse :: splitFuel sep fuel (l.drop sep.length) []
      else
        splitFuel sep fuel rest (c :: acc)

/-- Python s.split(sep) for a nonempty separator. -/
def pySplit (s sep : String) : List String :=
  if sep.toList.isEmpty then [s]
  else (splitFuel sep.toList s.toList.length s.toList []).map String.mk

/-- Python s.join(parts) used to model a split with maxsplit one. -/
def pyJoin (sep : String) : List String → String
  | [] => ""
  | [x] => x
  | x :: y :: rest => x ++ sep ++ pyJoin sep (y :: rest)

/-- Python s.split(sep, 1): at most one split, the remainder rejoined. -/
def pySplit1 (s sep : String) : List String :=
  match pySplit s sep with
  | [] => []
  | [x] => [x]
  | x :: rest => [x, pyJoin sep rest]

/-- Fuel-driven rewriter behind pyReplace; fuel at least the list length. -/
def replaceFuel (pat repl : List Char) : Nat → List Char → List Char
  | 0, l => l
  | fuel + 1, l =>
    match l with
    | [] => []
    | c :: rest =>
      if !pat.isEmpty && listIsPfx pat l then
        repl ++ replaceFuel pat repl fuel (l.drop pat.length)
      else
        c :: replaceFuel pat repl fuel rest

/-- Python s.replace(pat, repl): every non-overlapping occurrence, left to right. -/
def pyReplace (s pat repl : String) : String :=
  String.mk (replaceFuel pat.toList repl.toList s.toList.length s.toList)

/-- Python s.strip(): leading and trailing whitespace removed. -/
def pyStrip (s : String) : String :=
  String.mk (((s.toList.dropWhile Char.isWhitespace).reverse.dropWhile
    Char.isWhitespace).reverse)

/-- Python s.lower restricted to ASCII, which is all bot.py compares. -/
def pyLower (s : String) : String :=
  String.mk (s.toList.map Char.toLower)

/-- Worker behind pyTitle; the flag records whether the previous character
was alphabetic. -/
def pyTitleGo : Bool → List Char → List Char
  | _, [] => []
  | prevAlpha, c :: rest =>
    if c.isAlpha then
      (if prevAlpha then c.toLower else c.toUpper) :: pyTitleGo true rest
    else
      c :: pyTitleGo false rest

/-- Python s.title restricted to ASCII: the first letter of every alphabetic
run uppercased, the following ones lowercased. -/
def pyTitle (s : String) : String := String.mk (pyTitleGo false s.toList)

/-- Apostrophe character, written by code point to keep it out of literals. -/
def sq : String := String.singleton (Char.ofNat 39)

/-- A string wrapped in single quotes, as Python f-strings in bot.py do. -/
def quoted (s : String) : String := sq ++ s ++ sq

/-! ### Random draws

Randomness is passed in as natural-number picks. random.choice is selection
by an index reduced modulo the list length; random.choices with integer
weights is selection of the bucket a draw below the weight total falls in. -/

/-- Python random.choice given a pick: none models the IndexError raised on
an empty sequence. -/
def choice {α : Type} (l : List α) (pick : Nat) : Option α :=
  l.get? (pick % l.length)

/-- Cumulative-weight walk behind weightedChoice. -/
def weightedChoiceGo {α : Type} : List (α × Nat) → Nat → Option α
  | [], _ => none
  | (a, w) :: rest, r => if r < w then some a else weightedChoiceGo rest (r - w)

/-- Python random.choices(population, weights)[0] given a draw; none models
the ValueError raised when the weights sum to zero. -/
def weightedChoice {α : Type} (items : List (α × Nat)) (draw : Nat) : Option α :=
  let total := (items.map Prod.snd).sum
  if total = 0 then none else weightedChoiceGo items (draw % total)

/-! ### Data model -/

/-- Enum VisitMode of bot.py. -/
inductive VisitMode where
  | direct
  | search
deriving Repr, DecidableEq

/-- String value of a VisitMode member, its .value in Python. -/
def VisitMode.value : VisitMode → String
  | .direct => "direct"
  | .search => "search"

/-- Dataclass ProxyInfo of bot.py. -/
structure ProxyInfo where
  host : String
  port : String
  username : String
  password : String
deriving Repr, DecidableEq

/-- Property url of ProxyInfo. -/
def ProxyInfo.url (p : ProxyInfo) : String :=
  "http://" ++ p.username ++ ":" ++ p.password ++ "@" ++ p.host ++ ":" ++ p.port

/-- Dataclass SessionResult of bot.py. Timestamps are opaque naturals. -/
structure SessionResult where
  session_number : Nat
  total_sessions : Nat
  browser : String
  ip_address : String
  ip_location : String
  web_route : String
  url_or_keywords : String
  search_engine : Option String
  target_url_reached : Option String
  other_urls_visited : List String
  time_on_target_url : Rat
  clicks : Nat
  success : Bool
  failure_reason : Option String
  timestamp : Nat
deriving Repr, DecidableEq

/-! ### Configuration, _load_config -/

/-- The configuration keys of config.json that the verified logic reads.
target_sites is the destination-URL-to-query-list mapping (an association
list in key order); browser_weights is the per-engine weight mapping. -/
structure BotConfig where
  target_sites : List (String × List String)
  browser_weights : List (String × Nat)
  visit_mode_direct : Nat
  visit_mode_search : Nat
  session_timeout : Nat
deriving Repr, DecidableEq

/-- Built-in default configuration returned by _load_config when config.json
is absent (restricted to the keys the verified logic reads). -/
def defaultConfig : BotConfig where
  target_sites :=
    [("https://www.thebusinesshack.com/hire-a-pro-france",
       ["business hack", "hire professional France", "business services France"]),
     ("https://www.mindyourbiz.online/find-a-pro_france",
       ["mind your biz", "find professional France", "business expert France"]),
     ("https://www.arcsaver.com/find-a-pro",
       ["arc saver", "find professional", "expert services"]),
     ("https://www.le-trades.com/find-trades",
       ["le trades", "find trades", "trouver métiers"]),
     ("https://www.batiexperts.com/trouver-des-artisans",
       ["bati experts", "expert bâtiment", "trouver des artisans"]),
     ("https://www.trouveun.pro/",
       ["trouve un pro", "trouver professionnel", "expert France"]),
     ("https://www.cherche-artisan.com",
       ["cherche artisan", "trouver artisan", "artisan qualifié"])]
  browser_weights := [("chromium", 40), ("firefox", 35), ("edge", 25)]
  visit_mode_direct := 50
  visit_mode_search := 50
  session_timeout := 300

/-- State of a JSON file as the code reads it: absent, or present but
failing json.load, or holding a decoded value. -/
inductive FileState (α : Type) where
  | absent
  | corrupt
  | holds (content : α)
deriving Repr, DecidableEq

/-- A decoded config.json object, seen through the two subscripts startup
performs: either it has the target_sites key (and carries the keys the
verified logic reads), or that key is missing. -/
inductive ConfigJson where
  | withSites (cfg : BotConfig)
  | missingTargetSites
deriving Repr, DecidableEq

/-- Method _load_config: only FileNotFoundError is caught, falling back to
the built-in default configuration; a present but undecodable config.json
raises json.JSONDecodeError out of the constructor. -/
def loadConfig : FileState ConfigJson → Except String ConfigJson
  | .absent => .ok (.withSites defaultConfig)
  | .corrupt => .error "json.decoder.JSONDecodeError: Expecting value"
  | .holds j => .ok j

/-- The subscript self.config of target_sites right after _load_config in the
constructor: a decoded configuration without that key raises KeyError. -/
def readTargetSites : ConfigJson → Except String BotConfig
  | .withSites cfg => .ok cfg
  | .missingTargetSites => .error ("KeyError: " ++ quoted "target_sites")

/-! ### Proxy list, _load_proxies and startup -/

/-- One line of proxies.txt as _load_proxies reads it: stripped, skipped
unless nonempty with a colon, parsed into the first four colon fields. -/
def parseProxyLine (line : String) : Option ProxyInfo :=
  let l := pyStrip line
  if l ≠ "" && pyIn ":" l then
    match pySplit l ":" with
    | h :: p :: u :: w :: _ => some ⟨h, p, u, w⟩
    | _ => none
  else none

/-- The exception either error branch of _load_proxies actually raises: both
branches call self.logger.error before their sys.exit(1), but the logger
attribute is only assigned later in the constructor (bot.py line 119) while
_load_proxies runs at line 84, so the attribute access raises and sys.exit is
never reached. The fatal inputs are unchanged; the mechanism is an uncaught
exception. -/
def loggerAttributeError : String :=
  "AttributeError: " ++ quoted "WebAutomationBot" ++
    " object has no attribute " ++ quoted "logger"

/-- Method _load_proxies: none models proxies.txt being absent. An absent
file or one with no valid proxy line aborts with loggerAttributeError. -/
def loadProxies (proxiesFile : Option (List String)) :
    Except String (List ProxyInfo) :=
  match proxiesFile with
  | none => .error loggerAttributeError
  | some fileLines =>
    let proxies := fileLines.filterMap parseProxyLine
    if proxies.isEmpty then .error loggerAttributeError else .ok proxies

/-- Outcome of constructing WebAutomationBot: either an exception escapes the
constructor (only the top-level handler catches it, printing Fatal error and
ending the process) or the bot holds its configuration and proxy list. -/
inductive Startup where
  | aborted (msg : String)
  | started (cfg : BotConfig) (proxies : List ProxyInfo)
deriving Repr, DecidableEq

/-- The startup sequence of the constructor in source order: _load_config,
the target_sites subscript, then _load_proxies. -/
def startup (configFile : FileState ConfigJson)
    (proxiesFile : Option (List String)) : Startup :=
  match loadConfig configFile with
  | .error m => .aborted m
  | .ok json =>
    match readTargetSites json with
    | .error m => .aborted m
    | .ok cfg =>
      match loadProxies proxiesFile with
      | .error m => .aborted m
      | .ok proxies => .started cfg proxies

/-! ### Search result lookup, _find_and_click_target_link -/

/-- A DOM element as the selector loop observes it: anchor or not, inside an
h2 or h3 heading or not, href attribute, visibility. The list of elements is
in DOM order. -/
structure DomElem where
  isAnchor : Bool
  inHeading : Bool
  href : Option String
  visible : Bool
deriving Repr, DecidableEq

/-- Whether the element has an href attribute containing the given text. -/
def hrefHas (e : DomElem) (s : String) : Bool :=
  match e.href with
  | some h => pyIn s h
  | none => false

/-- Semantics of the i-th CSS selector of the ordered selector list in
_find_and_click_target_link, for destination domain d and engine domain ed. -/
def matchesSelector (d ed : String) : Nat → DomElem → Bool
  | 0, e => e.isAnchor && hrefHas e d
  | 1, e => e.isAnchor && e.inHeading && hrefHas e d
  | 2, e => e.isAnchor && hrefHas e ("https://" ++ d)
  | 3, e => e.isAnchor && hrefHas e ("http://" ++ d)
  | 4, e => e.isAnchor && hrefHas e ("www." ++ d)
  | _, e => hrefHas e d && !hrefHas e ed

/-- Number of selectors in the ordered selector list. -/
def selectorCount : Nat := 6

/-- The per-link visibility and href filter applied to each selector match:
visible, href truthy, destination domain inside href, and no search-engine
internal marker inside the lowercased href. -/
def linkFilter (d ed : String) (e : DomElem) : Bool :=
  e.visible &&
    (match e.href with
     | some h =>
       h ≠ "" && pyIn d h &&
         !(pyIn ed (pyLower h) || pyIn "/search?" (pyLower h) ||
           pyIn "cache:" (pyLower h) || pyIn "translate." (pyLower h))
     | none => false)

/-- The selector loop: for each selector in order, the first filtered match
among the elements that selector returns; the first selector that yields a
link wins. -/
def findTargetLink (d ed : String) (elems : List DomElem) : Option DomElem :=
  (List.range selectorCount).findSome? fun i =>
    (elems.filter (matchesSelector d ed i)).find? (linkFilter d ed)

/-- Exception text raised when no matching result link is found. -/
def notFoundMsg (d engineName q : String) : String :=
  "Target domain " ++ quoted d ++ " not found in " ++ engineName ++
    " search results for query: " ++ quoted q

/-- Exception text the outer handler wraps other errors in. -/
def failedClickMsg (d inner : String) : String :=
  "Failed to click target link for " ++ quoted d ++ ": " ++ inner

/-- Truthiness of an optional string attribute, as Python tests target_href. -/
def truthyOptStr : Option String → Bool
  | none => false
  | some s => s ≠ ""

/-- Click-and-navigation observations of one _find_and_click_target_link run:
an exception message if scrolling or clicking the link raised, the page URL
once the post-click wait loop is over, and the page URL the fallback
page.goto(target_href) ends on (none when that goto raised, in which case the
code keeps the URL it had). -/
structure NavEnv where
  clickError : Option String
  landedUrl : String
  gotoResult : Option String
deriving Repr, DecidableEq

/-- Body of the try block of _find_and_click_target_link: locate the link,
capture its href, click, then fall back to direct navigation only when the
landed URL still contains the engine domain and the captured href is truthy. -/
def findAndClickInner (d ed engineName q : String) (elems : List DomElem)
    (nav : NavEnv) : Except String String :=
  match findTargetLink d ed elems with
  | none => .error (notFoundMsg d engineName q)
  | some link =>
    let targetHref := link.href
    match nav.clickError with
    | some m => .error m
    | none =>
      let actualUrl := nav.landedUrl
      let actualUrl :=
        if pyIn ed actualUrl && truthyOptStr targetHref then
          match nav.gotoResult with
          | some u => u
          | none => actualUrl
        else actualUrl
      .ok actualUrl

/-- Method _find_and_click_target_link with its outer exception handler: an
exception whose text contains the literal phrase the handler looks for is
re-raised as is, any other is wrapped in failedClickMsg. -/
def findAndClickTargetLink (d ed engineName q : String) (elems : List DomElem)
    (nav : NavEnv) : Except String String :=
  match findAndClickInner d ed engineName q elems nav with
  | .ok u => .ok u
  | .error e =>
    if pyIn "not found in search results" e then .error e
    else .error (failedClickMsg d e)

/-! ### Search engines, _search_duckduckgo, _search_bing, _search_yahoo -/

/-- Observations of one engine-specific search run: an exception message if
loading the engine, finding the search box or submitting raised, then the
result-page elements and navigation observations. -/
structure EngineEnv where
  preError : Option String
  elems : List DomElem
  nav : NavEnv
deriving Repr, DecidableEq

/-- Common shape of _search_duckduckgo, _search_bing and _search_yahoo:
navigate and type (any raise propagates), then find and click the target. -/
def searchEngineRun (ed engineName q d : String) (env : EngineEnv) :
    Except String String :=
  match env.preError with
  | some m => .error m
  | none => findAndClickTargetLink d ed engineName q env.elems env.nav

/-! ### Search route, _visit_via_search -/

/-- The search engine population random.choice draws from. -/
def searchEngines : List String := ["duckduckgo", "bing", "yahoo"]

/-- Engine domain passed to _find_and_click_target_link per selected engine;
the else branch of the dispatch is yahoo. -/
def engineDomainOf : String → String
  | "duckduckgo" => "duckduckgo.com"
  | "bing" => "bing.com"
  | _ => "yahoo.com"

/-- Engine display name passed to _find_and_click_target_link. -/
def engineNameOf : String → String
  | "duckduckgo" => "DuckDuckGo"
  | "bing" => "Bing"
  | _ => "Yahoo"

/-- Keyword-entry parsing of _visit_via_search: an entry of the form
keyword, domain is split once on the comma; otherwise the domain is the third
slash field of the target URL with www. removed. Line 499 then strips www.
from the result of either branch. The error models the IndexError a target
URL with no host position would raise. -/
def keywordAndDomain (entry targetUrl : String) : Except String (String × String) :=
  match
    (if pyIn ", " entry then
      match pySplit1 entry ", " with
      | k :: dom :: _ => Except.ok (k, dom)
      | _ => Except.error "ValueError: not enough values to unpack"
    else
      match (pySplit targetUrl "/").get? 2 with
      | some host => Except.ok (entry, pyReplace host "www." "")
      | none => Except.error "IndexError: list index out of range") with
  | .error m => .error m
  | .ok (k, dom) => .ok (k, pyReplace dom "www." "")

/-- Observations and draws of one _visit_via_search run. -/
structure SearchEnv where
  targetPick : Nat
  keywordPick : Nat
  enginePick : Nat
  engineEnv : EngineEnv
deriving Repr, DecidableEq

/-- Method _visit_via_search: draw a target URL, one of its keyword entries
and an engine, build the query, run the engine search, and return the query,
the URL actually landed on and the selected engine. -/
def visitViaSearch (sites : List (String × List String)) (env : SearchEnv) :
    Except String (String × String × String) :=
  let targetUrls := sites.map Prod.fst
  match choice targetUrls env.targetPick with
  | none => .error "IndexError: Cannot choose from an empty sequence"
  | some targetUrl =>
    let availableKeywords :=
      match sites.find? (fun p => p.fst == targetUrl) with
      | some p => p.snd
      | none => []
    match choice availableKeywords env.keywordPick with
    | none => .error "IndexError: Cannot choose from an empty sequence"
    | some keywordEntry =>
      match keywordAndDomain keywordEntry targetUrl with
      | .error m => .error m
      | .ok (keyword, searchDomain) =>
        let searchQuery := keyword ++ " " ++ searchDomain
        match choice searchEngines env.enginePick with
        | none => .error "IndexError: Cannot choose from an empty sequence"
        | some engine =>
          match searchEngineRun (engineDomainOf engine) (engineNameOf engine)
              searchQuery searchDomain env.engineEnv with
          | .error m => .error m
          | .ok actualUrl => .ok (searchQuery, actualUrl, engine)

/-! ### Session execution, _execute_session -/

/-- The regex search for the query inside a search-failure message, the
pattern being: the literal text for query colon space quote, then one or more
non-quote characters, then a quote. Messages built by bot.py contain exactly
one candidate position, so the leftmost-match semantics reduces to this. -/
def extractQuery (msg : String) : Option String :=
  match pySplit msg ("for query: " ++ sq) with
  | _ :: r :: rs =>
    let tail := pyJoin ("for query: " ++ sq) (r :: rs)
    let body := tail.toList.takeWhile (fun c => c ≠ Char.ofNat 39)
    if !body.isEmpty && body.length < tail.toList.length then
      some (String.mk body)
    else none
  | _ => none

/-- The inner exception handler of the search branch of _execute_session: it
rewrites url_or_keywords and search_engine from the exception text before
re-raising. Every branch assigns search_engine a non-null value. -/
def classifySearchError (r : SessionResult) (msg : String) : SessionResult :=
  if pyIn "search results for query:" msg then
    let r1 := { r with url_or_keywords := (extractQuery msg).getD "Search failed" }
    if pyIn "DuckDuckGo" msg then { r1 with search_engine := some "duckduckgo" }
    else if pyIn "Bing" msg then { r1 with search_engine := some "bing" }
    else if pyIn "Yahoo" msg then { r1 with search_engine := some "yahoo" }
    else { r1 with search_engine := some "unknown" }
  else
    { r with url_or_keywords := "Search failed", search_engine := some "unknown" }

/-- Observations of one _execute_session run: a launch-phase exception (the
playwright start, browser launch, context and page creation), the IP lookup
result (never raises, it catches internally), the direct-route draw and
navigation outcome, the search-route observations, the interaction counts
_random_clicks always returns, and an exception in the dwell loop after them. -/
structure ExecEnv where
  launchError : Option String
  ipAddress : String
  ipLocation : String
  directPick : Nat
  directNavError : Option String
  searchEnv : SearchEnv
  interactionClicks : Nat
  interactionUrls : List String
  dwellError : Option String
deriving Repr, DecidableEq

/-- The SessionResult literal built at the top of the attempt loop. -/
def initialResult (sessionNum totalSessions : Nat) (browser : String)
    (mode : VisitMode) (ts : Nat) : SessionResult where
  session_number := sessionNum
  total_sessions := totalSessions
  browser := browser
  ip_address := "Unknown"
  ip_location := "Unknown"
  web_route := mode.value
  url_or_keywords := ""
  search_engine := none
  target_url_reached := none
  other_urls_visited := []
  time_on_target_url := 0
  clicks := 0
  success := false
  failure_reason := none
  timestamp := ts

/-- Tail of _execute_session after the visit: _perform_human_interactions
stores the click count and visited URLs, then success is set unless the dwell
loop raised, in which case the outer handler records the failure. -/
def afterVisit (r : SessionResult) (env : ExecEnv) : SessionResult :=
  let r1 := { r with
    clicks := env.interactionClicks
    other_urls_visited := env.interactionUrls }
  match env.dwellError with
  | some m => { r1 with failure_reason := some m, success := false }
  | none => { r1 with success := true }

/-- Method _execute_session: launch, IP lookup, the direct or search visit,
human interactions; every exception is caught by its outer handler, which
records the reason on the result it returns. -/
def executeSession (sites : List (String × List String)) (mode : VisitMode)
    (r0 : SessionResult) (env : ExecEnv) : SessionResult :=
  match env.launchError with
  | some m => { r0 with failure_reason := some m, success := false }
  | none =>
    let r1 := { r0 with ip_address := env.ipAddress, ip_location := env.ipLocation }
    match mode with
    | .direct =>
      match choice (sites.map Prod.fst) env.directPick with
      | none =>
        { r1 with
          failure_reason := some "IndexError: Cannot choose from an empty sequence"
          success := false }
      | some targetUrl =>
        match env.directNavError with
        | some m => { r1 with failure_reason := some m, success := false }
        | none =>
          afterVisit
            { r1 with url_or_keywords := targetUrl, target_url_reached := some targetUrl }
            env
    | .search =>
      match visitViaSearch sites env.searchEnv with
      | .ok (query, actualUrl, engine) =>
        afterVisit
          { r1 with
            url_or_keywords := query
            target_url_reached := some actualUrl
            search_engine := some engine }
          env
      | .error msg =>
        let r2 := classifySearchError r1 msg
        { r2 with failure_reason := some msg, success := false }

/-! ### Attempt loop, _run_single_session -/

/-- How one awaited _execute_session call ends seen from _run_single_session:
it ran to completion within the timeout (it catches its own exceptions and
returns a result), asyncio.wait_for raised TimeoutError, or some other
exception escaped. -/
inductive AttemptOutcome where
  | completed (env : ExecEnv)
  | timedOut
  | raised (msg : String)
deriving Repr, DecidableEq

/-- Draws and observations of one iteration of the attempt loop. -/
structure AttemptEnv where
  proxyPick : Nat
  modePick : Nat
  outcome : AttemptOutcome
deriving Repr, DecidableEq

/-- The route-weight table random.choices draws the visit mode from. -/
def routeTable (cfg : BotConfig) : List (VisitMode × Nat) :=
  [(VisitMode.direct, cfg.visit_mode_direct), (VisitMode.search, cfg.visit_mode_search)]

/-- Value of max_proxy_attempts in _run_single_session. -/
def maxProxyAttempts : Nat := 3

/-- How one iteration of a Python for-loop body ends: an executed return
statement, or control falling through to the next iteration. -/
inductive LoopStep (α : Type) where
  | ret (a : α)
  | fallthrough
deriving Repr, DecidableEq

/-- Body of the attempt loop of _run_single_session: draw a proxy and a visit
mode (a zero weight total raises out of the method), build the fresh result
record, then run _execute_session under the timeout. Every branch of the
try-except executes a return statement, so no translated branch produces
LoopStep.fallthrough. -/
def sessionAttemptBody (cfg : BotConfig) (sessionNum totalSessions : Nat)
    (browser : String) (ts : Nat) (a : AttemptEnv) :
    Except String (LoopStep SessionResult) :=
  match weightedChoice (routeTable cfg) a.modePick with
  | none => .error "ValueError: Total of weights must be greater than zero"
  | some mode =>
    let r0 := initialResult sessionNum totalSessions browser mode ts
    match a.outcome with
    | .completed env => .ok (.ret (executeSession cfg.target_sites mode r0 env))
    | .timedOut =>
      .ok (.ret { r0 with
        failure_reason :=
          some ("Session timed out after " ++ toString cfg.session_timeout ++ " seconds.")
        success := false })
    | .raised msg =>
      .ok (.ret { r0 with failure_reason := some msg, success := false })

/-- The for-loop over range(max_proxy_attempts), structurally recursive on the
remaining iteration count. i is the current attempt index; the returned
natural is the number of attempts executed, each one a browser launch. The
fuel-exhausted case models the return statement after the loop, which reads a
result variable no iteration left behind; it is unreachable because the loop
body never falls through. -/
def attemptLoop (cfg : BotConfig) (sessionNum totalSessions : Nat)
    (browser : String) (ts : Nat) (attempts : Nat → AttemptEnv) :
    Nat → Nat → Except String (SessionResult × Nat)
  | _, 0 => .error "UnboundLocalError: local variable result"
  | i, fuel + 1 =>
    match sessionAttemptBody cfg sessionNum totalSessions browser ts (attempts i) with
    | .error m => .error m
    | .ok (.ret r) => .ok (r, i + 1)
    | .ok .fallthrough =>
      attemptLoop cfg sessionNum totalSessions browser ts attempts (i + 1) fuel

/-- Method _run_single_session: the attempt loop started at attempt zero. -/
def runSingleSession (cfg : BotConfig) (sessionNum totalSessions : Nat)
    (browser : String) (ts : Nat) (attempts : Nat → AttemptEnv) :
    Except String (SessionResult × Nat) :=
  attemptLoop cfg sessionNum totalSessions browser ts attempts 0 maxProxyAttempts

/-! ### Direct route, _visit_direct -/

/-- Method _visit_direct: random.choice over self.target_urls, the keys of
the target_sites mapping, then page.goto on the drawn URL, which is returned. -/
def visitDirect (targetUrls : List String) (pick : Nat) : Option String :=
  choice targetUrls pick

/-! ### Session loop of run_bot -/

/-- The browser_types list of run_bot, by BrowserType value. -/
def browserTypes : List String := ["chrome", "firefox", "edge", "webkit", "brave"]

/-- Python dict subscript on the browser_weights mapping: a missing key is a
KeyError naming the key. -/
def dictGet (m : List (String × Nat)) (k : String) : Except String Nat :=
  match m.find? (fun p => p.fst == k) with
  | some p => .ok p.snd
  | none => .error ("KeyError: " ++ quoted k)

/-- The weight list run_bot builds for random.choices, reading the five keys
chromium, firefox, edge, webkit and brave in that order; the first missing
key raises. -/
def selectBrowserWeights (cfg : BotConfig) : Except String (List Nat) := do
  let c ← dictGet cfg.browser_weights "chromium"
  let f ← dictGet cfg.browser_weights "firefox"
  let e ← dictGet cfg.browser_weights "edge"
  let w ← dictGet cfg.browser_weights "webkit"
  let b ← dictGet cfg.browser_weights "brave"
  return [c, f, e, w, b]

/-- One iteration of the session loop of run_bot up to and including
_run_single_session: the browser draw precedes the session, so a KeyError in
the weight lookup raises before any session executes. -/
def sessionLoopIteration (cfg : BotConfig) (sessionNum totalSessions : Nat)
    (browserPick ts : Nat) (attempts : Nat → AttemptEnv) :
    Except String (SessionResult × Nat) :=
  match selectBrowserWeights cfg with
  | .error m => .error m
  | .ok ws =>
    match weightedChoice (browserTypes.zip ws) browserPick with
    | none => .error "ValueError: Total of weights must be greater than zero"
    | some browser => runSingleSession cfg sessionNum totalSessions browser ts attempts

/-- How run_bot ends around its session loop. -/
inductive RunBotEnd where
  | completed
  | botError (msg : String)
deriving Repr, DecidableEq

/-- The exception handler wrapping the session loop of run_bot: any exception
escaping the loop is caught, logged and turned into a normal finish of the
run; nothing propagates out. -/
def runBotCaught {α : Type} (loopOutcome : Except String α) : RunBotEnd :=
  match loopOutcome with
  | .ok _ => .completed
  | .error m => .botError m

/-! ### Persistence, _save_session_result -/

/-- Banker-style rounding to an integer, the semantics of Python round. -/
def roundHalfEven (q : Rat) : Int :=
  let f := ⌊q⌋
  let r := q - f
  if r < 1 / 2 then f
  else if 1 / 2 < r then f + 1
  else if f % 2 = 0 then f else f + 1

/-- Python round(q, 1). -/
def pyRound1 (q : Rat) : Rat := (roundHalfEven (q * 10) : Rat) / 10

/-- Python round(q, 2). -/
def pyRound2 (q : Rat) : Rat := (roundHalfEven (q * 100) : Rat) / 100

/-- The dictionary _save_session_result serializes one SessionResult into;
the dwell time is rounded to two decimals on the way out. -/
structure SavedRecord where
  session_number : Nat
  total_sessions : Nat
  browser : String
  ip_address : String
  ip_location : String
  web_route : String
  search_engine : Option String
  url_or_keywords : String
  target_url_reached : Option String
  other_urls_visited : List String
  time_on_target_url : Rat
  clicks : Nat
  success : Bool
  failure_reason : Option String
  timestamp : Nat
deriving Repr, DecidableEq

/-- The result_dict built by _save_session_result. -/
def toSavedRecord (r : SessionResult) : SavedRecord where
  session_number := r.session_number
  total_sessions := r.total_sessions
  browser := r.browser
  ip_address := r.ip_address
  ip_location := r.ip_location
  web_route := r.web_route
  search_engine := r.search_engine
  url_or_keywords := r.url_or_keywords
  target_url_reached := r.target_url_reached
  other_urls_visited := r.other_urls_visited
  time_on_target_url := pyRound2 r.time_on_target_url
  clicks := r.clicks
  success := r.success
  failure_reason := r.failure_reason
  timestamp := r.timestamp

/-- The load step of _save_session_result: a missing or undecodable results
file yields an empty list. -/
def loadAllResults : FileState (List SavedRecord) → List SavedRecord
  | .absent => []
  | .corrupt => []
  | .holds xs => xs

/-- Count of records whose success field is set. -/
def countSuccessful (xs : List SavedRecord) : Nat :=
  (xs.filter (fun r => r.success)).length

/-- The success-rate expression of _save_session_result before rounding. -/
def successRate (successful total : Nat) : Rat :=
  if total > 0 then (successful : Rat) / (total : Rat) * 100 else 0

/-- The summary object _save_session_result rewrites after every session. -/
structure Summary where
  last_updated : Nat
  total_sessions_completed : Nat
  successful_sessions : Nat
  failed_sessions : Nat
  success_rate_percent : Rat
  latest_session : SavedRecord
deriving Repr, DecidableEq

/-- The summary computation of _save_session_result over the new array. -/
def mkSummary (allResults : List SavedRecord) (latest : SavedRecord) (now : Nat) :
    Summary where
  last_updated := now
  total_sessions_completed := allResults.length
  successful_sessions := countSuccessful allResults
  failed_sessions := allResults.length - countSuccessful allResults
  success_rate_percent :=
    pyRound1 (successRate (countSuccessful allResults) allResults.length)
  latest_session := latest

/-- Method _save_session_result: serialize the result, load the existing
array, append, write the new array back, and rewrite the summary file from
the new array. The pair is the two files as written. -/
def saveSessionResult (file : FileState (List SavedRecord)) (r : SessionResult)
    (now : Nat) : List SavedRecord × Summary :=
  let resultDict := toSavedRecord r
  let allResults := loadAllResults file ++ [resultDict]
  (allResults, mkSummary allResults resultDict now)

/-! ### PDF report, _generate_pdf_report -/

/-- Count of report sessions whose success flag is set. -/
def countSuccessSessions (xs : List SessionResult) : Nat :=
  (xs.filter (fun r => r.success)).length

/-- Fixed-point formatting of a nonnegative rational to one decimal, the
f-string percent formatting of the summary table. -/
def fmt1 (q : Rat) : String :=
  let n := roundHalfEven (q * 10)
  toString (n / 10) ++ "." ++ toString (n % 10)

/-- The summary table rows of _generate_pdf_report. The end session is the
start session plus the batch size minus one, an integer that can sit below
the start for an empty batch. -/
def summaryTableData (reportSessions : List SessionResult) (startSession : Int)
    (generated : String) : List (String × String) :=
  let total := reportSessions.length
  let succ := countSuccessSessions reportSessions
  let fail := total - succ
  let endSession : Int := startSession + total - 1
  [("Report Period", "Sessions " ++ toString startSession ++ " - " ++ toString endSession),
   ("Total Sessions", toString total),
   ("Successful", toString succ),
   ("Failed", toString fail),
   ("Success Rate",
     if total > 0 then fmt1 ((succ : Rat) / (total : Rat) * 100) ++ "%" else "0%"),
   ("Generated", generated)]

/-- The per-session detail rows of _generate_pdf_report. The timestamp cell
is the strftime rendering of the opaque timestamp. -/
def sessionDetailRows (s : SessionResult) : List (String × String) :=
  [("Browser", s.browser),
   ("IP Address", s.ip_address),
   ("IP Location", s.ip_location),
   ("Web Route", s.web_route),
   ("Search Engine", match s.search_engine with
     | some e => pyTitle e
     | none => "N/A (Direct)"),
   ("URL/Keywords", s.url_or_keywords),
   ("Target URL Reached", match s.target_url_reached with
     | some u => u
     | none => "N/A"),
   ("Other URLs Visited", match s.other_urls_visited with
     | [] => "None"
     | us => pyJoin ", " us),
   ("Time on Target URL", fmt1 s.time_on_target_url ++ " seconds"),
   ("Clicks", toString s.clicks),
   ("Status", if s.success then "✓ Success"
     else "✗ Failed: " ++ (match s.failure_reason with
       | some m => m
       | none => "None")),
   ("Timestamp", toString s.timestamp)]

/-- The document _generate_pdf_report builds plus the flag it returns: the
computation is total, so the try block completes and returns true. -/
def generatePdfReport (reportSessions : List SessionResult) (startSession : Int)
    (generated : String) : Bool × List (String × String) × List (List (String × String)) :=
  (true, summaryTableData reportSessions startSession generated,
    reportSessions.map sessionDetailRows)

/-! ### Concrete environments used to evaluate the model at specific inputs -/

/-- Navigation observations of a run that never reaches a result page. -/
def emptyNav : NavEnv where
  clickError := none
  landedUrl := ""
  gotoResult := none

/-- Engine observations with an empty result page. -/
def emptyEngineEnv : EngineEnv where
  preError := none
  elems := []
  nav := emptyNav

/-- Search observations drawing the first target, keyword and engine over an
empty result page. -/
def emptySearchEnv : SearchEnv where
  targetPick := 0
  keywordPick := 0
  enginePick := 0
  engineEnv := emptyEngineEnv

/-- Execution observations of a session whose browser launch raises a proxy
connection failure. -/
def proxyFailEnv : ExecEnv where
  launchError := some "BrowserType.launch: net::ERR_PROXY_CONNECTION_FAILED"
  ipAddress := "Unknown"
  ipLocation := "Unknown"
  directPick := 0
  directNavError := none
  searchEnv := emptySearchEnv
  interactionClicks := 0
  interactionUrls := []
  dwellError := none

/-- Execution observations of a direct-route session that completes cleanly. -/
def okDirectEnv : ExecEnv where
  launchError := none
  ipAddress := "93.118.34.5"
  ipLocation := "Paris, France"
  directPick := 0
  directNavError := none
  searchEnv := emptySearchEnv
  interactionClicks := 2
  interactionUrls := []
  dwellError := none

/-- Attempt observations for C1: the first attempt hits the proxy failure,
every later attempt would complete cleanly if it ran. -/
def retryAttempts : Nat → AttemptEnv
  | 0 => { proxyPick := 0, modePick := 0, outcome := .completed proxyFailEnv }
  | _ => { proxyPick := 1, modePick := 0, outcome := .completed okDirectEnv }

/-- The record the clean direct-route attempt of retryAttempts produces. -/
def okDirectRecord : SessionResult where
  session_number := 1
  total_sessions := 10
  browser := "chromium"
  ip_address := "93.118.34.5"
  ip_location := "Paris, France"
  web_route := "direct"
  url_or_keywords := "https://www.thebusinesshack.com/hire-a-pro-france"
  search_engine := none
  target_url_reached := some "https://www.thebusinesshack.com/hire-a-pro-france"
  other_urls_visited := []
  time_on_target_url := 0
  clicks := 2
  success := true
  failure_reason := none
  timestamp := 0

/-- Execution observations of a search-route session whose launch times out
before any search engine is selected. -/
def searchLaunchFailEnv : ExecEnv where
  launchError := some "Timeout 30000ms exceeded."
  ipAddress := "Unknown"
  ipLocation := "Unknown"
  directPick := 0
  directNavError := none
  searchEnv := emptySearchEnv
  interactionClicks := 0
  interactionUrls := []
  dwellError := none

/-- Attempt observations for the C2 counterexample: a draw of 50 selects the
search route under the default fifty-fifty weights. -/
def searchLaunchFailAttempt : AttemptEnv where
  proxyPick := 0
  modePick := 50
  outcome := .completed searchLaunchFailEnv

/-- The record the search-route launch failure produces. -/
def searchLaunchFailRecord : SessionResult :=
  { initialResult 2 10 "firefox" VisitMode.search 0 with
    failure_reason := some "Timeout 30000ms exceeded."
    success := false }

/-- Execution observations of a search-route session over an empty result
page: the link lookup fails terminally. -/
def linkNotFoundEnv : ExecEnv where
  launchError := none
  ipAddress := "93.118.34.5"
  ipLocation := "Paris, France"
  directPick := 0
  directNavError := none
  searchEnv := emptySearchEnv
  interactionClicks := 0
  interactionUrls := []
  dwellError := none

/-- Attempt observations for the C5 witness. -/
def linkNotFoundAttempt : AttemptEnv where
  proxyPick := 0
  modePick := 50
  outcome := .completed linkNotFoundEnv

/-- The exception text the empty result page produces for the first default
target and keyword under DuckDuckGo. -/
def linkNotFoundText : String :=
  failedClickMsg "thebusinesshack.com"
    (notFoundMsg "thebusinesshack.com" "DuckDuckGo" "business hack thebusinesshack.com")

/-- A visible result anchor for the first default target. -/
def targetAnchor : DomElem where
  isAnchor := true
  inHeading := false
  href := some "https://www.thebusinesshack.com/hire-a-pro-france"
  visible := true

/-- Navigation observations for the C4 counterexample: the click lands on a
page that is neither the destination nor the engine. -/
def offEngineNav : NavEnv where
  clickError := none
  landedUrl := "https://consent.example.com/interstitial"
  gotoResult := some "https://www.thebusinesshack.com/hire-a-pro-france"

/-- Navigation observations for the C4 witness: the click leaves the page on
the engine, so the fallback navigation runs and succeeds. -/
def onEngineNav : NavEnv where
  clickError := none
  landedUrl := "https://www.bing.com/search?q=business+hack"
  gotoResult := some "https://www.thebusinesshack.com/hire-a-pro-france"

/-- A saved record used to build concrete results files. -/
def sampleSaved (b : Bool) : SavedRecord where
  session_number := 1
  total_sessions := 10
  browser := "chromium"
  ip_address := "93.118.34.5"
  ip_location := "Paris, France"
  web_route := "direct"
  search_engine := none
  url_or_keywords := "https://www.trouveun.pro/"
  target_url_reached := some "https://www.trouveun.pro/"
  other_urls_visited := []
  time_on_target_url := 0
  clicks := 1
  success := b
  failure_reason := none
  timestamp := 0

/-- A results file of ten records of which seven are successful. -/
def tenRecords : List SavedRecord :=
  [sampleSaved true, sampleSaved true, sampleSaved true, sampleSaved true,
   sampleSaved true, sampleSaved true, sampleSaved true,
   sampleSaved false, sampleSaved false, sampleSaved false]

/-- Attempt observations of a clean direct session, draw 0 selecting the
direct route under the default weights. -/
def directOkAttempt : AttemptEnv where
  proxyPick := 0
  modePick := 0
  outcome := .completed okDirectEnv

/-- The record the link-not-found session of linkNotFoundAttempt produces. -/
def linkNotFoundRecord : SessionResult :=
  executeSession defaultConfig.target_sites VisitMode.search
    (initialResult 1 5 "firefox" VisitMode.search 0) linkNotFoundEnv

/-! ### Helper lemmas -/

/-- A VisitMode value string is direct or search. -/
theorem VisitMode.value_cases (m : VisitMode) :
    m.value = "direct" ∨ m.value = "search" := by
  cases m
  · exact Or.inl rfl
  · exact Or.inr rfl

/-- A VisitMode value string equals search exactly for the search mode. -/
theorem VisitMode.value_eq_search_iff (m : VisitMode) :
    m.value = "search" ↔ m = .search := by
  cases m <;> decide

/-- The fields afterVisit never writes. -/
theorem afterVisit_route_engine (r : SessionResult) (env : ExecEnv) :
    (afterVisit r env).web_route = r.web_route ∧
      (afterVisit r env).search_engine = r.search_engine := by
  unfold afterVisit
  cases env.dwellError <;> exact ⟨rfl, rfl⟩

/-- The success flag afterVisit leaves behind. -/
theorem afterVisit_success (r : SessionResult) (env : ExecEnv) :
    (afterVisit r env).success = true ↔ env.dwellError = none := by
  unfold afterVisit
  cases env.dwellError <;> simp

/-- The route field classifySearchError never writes. -/
theorem classifySearchError_route (r : SessionResult) (msg : String) :
    (classifySearchError r msg).web_route = r.web_route := by
  unfold classifySearchError
  split_ifs <;> rfl

/-- Every branch of classifySearchError writes a non-null search engine. -/
theorem classifySearchError_engine (r : SessionResult) (msg : String) :
    (classifySearchError r msg).search_engine ≠ none := by
  unfold classifySearchError
  split_ifs <;> simp

/-- The error cases of _load_proxies are exactly the absent file and the file
with no parseable proxy line. -/
theorem loadProxies_error_iff (proxiesFile : Option (List String)) :
    (∃ m, loadProxies proxiesFile = .error m) ↔
      (proxiesFile = none ∨ ∃ fileLines, proxiesFile = some fileLines ∧
        fileLines.filterMap parseProxyLine = []) := by
  rcases proxiesFile with _ | fileLines
  · simp [loadProxies]
  · unfold loadProxies
    rcases h : fileLines.filterMap parseProxyLine with _ | ⟨p, ps⟩
    · simp [h]
      exact List.filterMap_eq_nil_iff.mp h
    · simp [h]
      have hp : p ∈ fileLines.filterMap parseProxyLine := by
        rw [h]
        exact List.mem_cons_self _ _
      obtain ⟨a, ha, hpa⟩ := List.mem_filterMap.mp hp
      exact ⟨a, ha, by simp [hpa]⟩

/-- Every branch of the attempt loop body executes a return statement. -/
theorem sessionAttemptBody_ne_fallthrough (cfg : BotConfig)
    (sessionNum totalSessions : Nat) (browser : String) (ts : Nat)
    (a : AttemptEnv) :
    sessionAttemptBody cfg sessionNum totalSessions browser ts a ≠
      .ok .fallthrough := by
  unfold sessionAttemptBody
  rcases hw : weightedChoice (routeTable cfg) a.modePick with _ | mode
  · simp
  · cases a.outcome <;> simp

/-- One unrolling of the attempt loop. -/
theorem attemptLoop_succ (cfg : BotConfig) (sessionNum totalSessions : Nat)
    (browser : String) (ts : Nat) (attempts : Nat → AttemptEnv) (i fuel : Nat) :
    attemptLoop cfg sessionNum totalSessions browser ts attempts i (fuel + 1) =
      match sessionAttemptBody cfg sessionNum totalSessions browser ts (attempts i) with
      | .error m => .error m
      | .ok (.ret r) => .ok (r, i + 1)
      | .ok .fallthrough =>
        attemptLoop cfg sessionNum totalSessions browser ts attempts (i + 1) fuel := rfl

/-- Since the loop body always returns, _run_single_session yields a result
exactly when the first iteration does, after exactly one attempt. -/
theorem runSingleSession_ok_iff (cfg : BotConfig) (sessionNum totalSessions : Nat)
    (browser : String) (ts : Nat) (attempts : Nat → AttemptEnv)
    (r : SessionResult) (n : Nat) :
    runSingleSession cfg sessionNum totalSessions browser ts attempts = .ok (r, n) ↔
      sessionAttemptBody cfg sessionNum totalSessions browser ts (attempts 0) =
          .ok (.ret r) ∧ n = 1 := by
  show attemptLoop cfg sessionNum totalSessions browser ts attempts 0 (2 + 1) = _ ↔ _
  rw [attemptLoop_succ]
  rcases hb : sessionAttemptBody cfg sessionNum totalSessions browser ts (attempts 0)
    with m | s
  · simp
  · cases s with
    | ret r0 => simp [Prod.ext_iff, eq_comm, and_comm]
    | fallthrough => exact absurd hb (sessionAttemptBody_ne_fallthrough _ _ _ _ _ _)

/-- The route field is written once, before _execute_session runs, and never
rewritten by it. -/
theorem executeSession_web_route (sites : List (String × List String))
    (mode : VisitMode) (r0 : SessionResult) (env : ExecEnv) :
    (executeSession sites mode r0 env).web_route = r0.web_route := by
  unfold executeSession
  rcases env.launchError with _ | m
  · cases mode
    · rcases choice (sites.map Prod.fst) env.directPick with _ | t
      · rfl
      · rcases env.directNavError with _ | m
        · exact (afterVisit_route_engine _ _).1
        · rfl
    · rcases visitViaSearch sites env.searchEnv with m | ⟨q, u, e⟩
      · exact classifySearchError_route _ _
      · exact (afterVisit_route_engine _ _).1
  · rfl

/-- A direct-route execution never writes the search engine field. -/
theorem executeSession_direct_engine (sites : List (String × List String))
    (r0 : SessionResult) (env : ExecEnv) :
    (executeSession sites .direct r0 env).search_engine = r0.search_engine := by
  unfold executeSession
  rcases env.launchError with _ | m
  · rcases choice (sites.map Prod.fst) env.directPick with _ | t
    · rfl
    · rcases env.directNavError with _ | m
      · exact (afterVisit_route_engine _ _).2
      · rfl
  · rfl

/-- A successful search-route execution carries a non-null search engine. -/
theorem executeSession_search_success_engine (sites : List (String × List String))
    (r0 : SessionResult) (env : ExecEnv) :
    (executeSession sites .search r0 env).success = true →
      (executeSession sites .search r0 env).search_engine ≠ none := by
  unfold executeSession
  rcases env.launchError with _ | m
  · rcases visitViaSearch sites env.searchEnv with m | ⟨q, u, e⟩
    · intro hs
      exact absurd hs (by simp)
    · intro hs
      rw [(afterVisit_route_engine _ _).2]
      simp
  · intro hs
    exact absurd hs (by simp)

/-- Shape of the result when the search visit raises: the inner handler
classifies the message, then the outer handler records it. -/
theorem executeSession_search_error (sites : List (String × List String))
    (r0 : SessionResult) (env : ExecEnv) (msg : String)
    (hl : env.launchError = none)
    (hv : visitViaSearch sites env.searchEnv = .error msg) :
    executeSession sites .search r0 env =
      { classifySearchError
          { r0 with ip_address := env.ipAddress, ip_location := env.ipLocation } msg
        with failure_reason := some msg, success := false } := by
  unfold executeSession
  rw [hl, hv]

/-! ### Claim theorems -/

/-- C1: the retry the claim describes does not exist in the code. At a
session whose first attempt fails with a proxy connection failure at browser
launch while every later attempt would succeed, _run_single_session returns
the failed record after exactly one attempt: every branch of the attempt loop
body returns, so the loop over max_proxy_attempts never reaches a second
iteration and no fresh proxy is ever drawn. -/
theorem env_failure_not_retried :
    runSingleSession defaultConfig 1 10 "chromium" 0 retryAttempts =
      .ok ({ initialResult 1 10 "chromium" VisitMode.direct 0 with
             failure_reason := some "BrowserType.launch: net::ERR_PROXY_CONNECTION_FAILED"
             success := false }, 1) ∧
    sessionAttemptBody defaultConfig 1 10 "chromium" 0 (retryAttempts 1) =
      .ok (.ret okDirectRecord) ∧
    okDirectRecord.success = true :=
  ⟨rfl, rfl, rfl⟩

/-- C2 counterexample: a completed search-route session record whose
search_engine is null, produced when the browser launch raises before any
search engine is selected; it refutes the claimed equivalence between a
search route and a non-null search_engine. -/
theorem search_route_null_engine_cex :
    runSingleSession defaultConfig 2 10 "firefox" 0 (fun _ => searchLaunchFailAttempt) =
      .ok (searchLaunchFailRecord, 1) ∧
    searchLaunchFailRecord.web_route = "search" ∧
    searchLaunchFailRecord.search_engine = none ∧
    searchLaunchFailRecord.success = false :=
  ⟨rfl, rfl, rfl, rfl⟩

/-- C3 counterexample: startup with config.json absent does not terminate the
process; _load_config falls back to the built-in default configuration and
startup completes with it. -/
theorem config_absent_starts_with_defaults :
    startup .absent (some ["1.2.3.4:8080:user:pass"]) =
      .started defaultConfig
        [{ host := "1.2.3.4", port := "8080", username := "user", password := "pass" }] :=
  rfl

/-- C3 amended: startup aborts exactly when config.json is present but
undecodable (json.JSONDecodeError escapes, since _load_config catches only
FileNotFoundError), or the decoded configuration lacks the target_sites key
(KeyError), or proxies.txt is absent or holds no valid proxy line (each of
the latter aborting via the AttributeError its handler raises on the not yet
assigned logger, before sys.exit(1) could run). Absence of config.json does
not abort: the built-in defaults are used. Any exception escaping the session
loop is caught by the handler of run_bot instead of propagating. -/
theorem startup_fatal_conditions (configFile : FileState ConfigJson)
    (proxiesFile : Option (List String)) :
    ((∃ m, startup configFile proxiesFile = .aborted m) ↔
      (configFile = .corrupt ∨
        configFile = .holds .missingTargetSites ∨
        proxiesFile = none ∨
        ∃ fileLines, proxiesFile = some fileLines ∧
          fileLines.filterMap parseProxyLine = [])) ∧
    (∀ msg : String, runBotCaught (Except.error msg : Except String Unit) =
      .botError msg) := by
  refine ⟨?_, fun msg => rfl⟩
  have hiff := loadProxies_error_iff proxiesFile
  rcases configFile with _ | _ | (cfg | _)
  · have h1 : (∃ m, startup .absent proxiesFile = .aborted m) ↔
        (∃ m, loadProxies proxiesFile = .error m) := by
      unfold startup loadConfig readTargetSites
      rcases hl : loadProxies proxiesFile with m | ps <;> simp [hl]
    rw [h1, hiff]
    simp
  · constructor
    · intro _
      exact Or.inl rfl
    · intro _
      exact ⟨"json.decoder.JSONDecodeError: Expecting value", rfl⟩
  · have h1 : (∃ m, startup (.holds (.withSites cfg)) proxiesFile = .aborted m) ↔
        (∃ m, loadProxies proxiesFile = .error m) := by
      unfold startup loadConfig readTargetSites
      rcases hl : loadProxies proxiesFile with m | ps <;> simp [hl]
    rw [h1, hiff]
    simp
  · constructor
    · intro _
      exact Or.inr (Or.inl rfl)
    · intro _
      exact ⟨"KeyError: " ++ quoted "target_sites", rfl⟩

/-- C6: _visit_direct draws from exactly the configured destination set: for
a nonempty target_sites mapping the drawn URL exists and is one of its keys. -/
theorem visitDirect_in_target_set (sites : List (String × List String))
    (pick : Nat) (h : sites ≠ []) :
    visitDirect (sites.map Prod.fst) pick ≠ none ∧
    ∀ u, visitDirect (sites.map Prod.fst) pick = some u → u ∈ sites.map Prod.fst := by
  have hlen : 0 < (sites.map Prod.fst).length := by
    simpa [List.length_map] using List.length_pos.mpr h
  constructor
  · have hlt : pick % (sites.map Prod.fst).length < (sites.map Prod.fst).length :=
      Nat.mod_lt _ hlen
    unfold visitDirect choice
    rw [List.get?_eq_get hlt]
    simp
  · intro u hu
    exact List.get?_mem hu

/-- C6 witness: with the default destination set and pick nine, the draw
exists and lands inside the key set. -/
theorem visitDirect_in_target_set_witness :
    visitDirect (defaultConfig.target_sites.map Prod.fst) 9 ≠ none ∧
    "https://www.arcsaver.com/find-a-pro" ∈ defaultConfig.target_sites.map Prod.fst :=
  ⟨(visitDirect_in_target_set defaultConfig.target_sites 9 (by decide)).1,
   (visitDirect_in_target_set defaultConfig.target_sites 9 (by decide)).2 _ rfl⟩

/-- C7: persisting one more result over a well-formed file of records is
append-only: the new array is the old one with the serialized record at the
end, the prior prefix unchanged, and the summary file is rewritten from the
new array with the new totals. -/
theorem save_session_result_append_only (xs : List SavedRecord)
    (r : SessionResult) (now : Nat) :
    (saveSessionResult (.holds xs) r now).1 = xs ++ [toSavedRecord r] ∧
    (saveSessionResult (.holds xs) r now).1.length = xs.length + 1 ∧
    (saveSessionResult (.holds xs) r now).1.take xs.length = xs ∧
    (saveSessionResult (.holds xs) r now).2 =
      mkSummary (xs ++ [toSavedRecord r]) (toSavedRecord r) now ∧
    (saveSessionResult (.holds xs) r now).2.total_sessions_completed = xs.length + 1 := by
  refine ⟨rfl, by simp [saveSessionResult, loadAllResults], ?_, rfl, ?_⟩
  · show (xs ++ [toSavedRecord r]).take xs.length = xs
    exact List.take_left xs [toSavedRecord r]
  · simp [saveSessionResult, loadAllResults, mkSummary]

/-- C8: the summary success rate over a results array of ten records of which
seven are successful is exactly seventy. -/
theorem summary_success_rate_seventy (xs : List SavedRecord) (latest : SavedRecord)
    (now : Nat) (hlen : xs.length = 10) (hsucc : countSuccessful xs = 7) :
    (mkSummary xs latest now).success_rate_percent = 70 := by
  simp only [mkSummary, hlen, hsucc, successRate, pyRound1, roundHalfEven]
  norm_num

/-- C8 witness: the rate computed over a concrete file of ten records with
seven successes. -/
theorem summary_success_rate_seventy_witness :
    (mkSummary tenRecords (sampleSaved true) 0).success_rate_percent = 70 :=
  summary_success_rate_seventy tenRecords (sampleSaved true) 0 (by decide) (by decide)

/-- C9: a report over an empty batch completes (the computation is total and
the guarded rate expression avoids the zero division), returns the success
flag, and its summary table shows zero total sessions and a rate of 0%. -/
theorem empty_batch_report (startSession : Int) (generated : String) :
    (generatePdfReport [] startSession generated).1 = true ∧
    ("Total Sessions", "0") ∈ (generatePdfReport [] startSession generated).2.1 ∧
    ("Success Rate", "0%") ∈ (generatePdfReport [] startSession generated).2.1 := by
  refine ⟨rfl, ?_, ?_⟩ <;>
    simp only [generatePdfReport, summaryTableData, countSuccessSessions,
      List.mem_cons] <;> tauto

/-- C10: an absent config.json yields the built-in default configuration,
whose browser weights carry only chromium, firefox and edge, while the
session loop reads five keys; its first iteration raises KeyError for webkit
before _run_single_session is reached. -/
theorem default_config_browser_weights_keyerror (sessionNum totalSessions
    browserPick ts : Nat) (attempts : Nat → AttemptEnv) :
    loadConfig .absent = .ok (.withSites defaultConfig) ∧
    defaultConfig.browser_weights.map Prod.fst = ["chromium", "firefox", "edge"] ∧
    selectBrowserWeights defaultConfig = .error ("KeyError: " ++ quoted "webkit") ∧
    sessionLoopIteration defaultConfig sessionNum totalSessions browserPick ts
        attempts = .error ("KeyError: " ++ quoted "webkit") :=
  ⟨rfl, rfl, rfl, rfl⟩

/-- C2 amended: every completed session record carries a route that is direct
or search, equal to the value drawn from the configured route weights; a
non-null search_engine occurs only on the search route; and for successful
records the equivalence holds: the route is search exactly when search_engine
is non-null. Search-route records that fail before an engine is selected
carry a null search_engine, so the unconditional equivalence fails. -/
theorem route_and_engine_invariant (cfg : BotConfig)
    (sessionNum totalSessions : Nat) (browser : String) (ts : Nat)
    (attempts : Nat → AttemptEnv) (r : SessionResult) (n : Nat)
    (h : runSingleSession cfg sessionNum totalSessions browser ts attempts =
      .ok (r, n)) :
    (r.web_route = "direct" ∨ r.web_route = "search") ∧
    (∃ mode, weightedChoice (routeTable cfg) (attempts 0).modePick = some mode ∧
      r.web_route = mode.value) ∧
    (∀ e, r.search_engine = some e → r.web_route = "search") ∧
    (r.success = true → (r.web_route = "search" ↔ r.search_engine ≠ none)) := by
  obtain ⟨hbody, -⟩ :=
    (runSingleSession_ok_iff cfg sessionNum totalSessions browser ts attempts r n).mp h
  unfold sessionAttemptBody at hbody
  rcases hw : weightedChoice (routeTable cfg) (attempts 0).modePick with _ | mode
  · rw [hw] at hbody
    exact absurd hbody (by simp)
  · rw [hw] at hbody
    rcases ho : (attempts 0).outcome with env | _ | m <;> rw [ho] at hbody <;>
        simp only [Except.ok.injEq, LoopStep.ret.injEq] at hbody <;> subst hbody
    · have hroute : (executeSession cfg.target_sites mode
          (initialResult sessionNum totalSessions browser mode ts) env).web_route =
          mode.value := executeSession_web_route _ _ _ _
      refine ⟨?_, ⟨mode, rfl, hroute⟩, ?_, ?_⟩
      · rw [hroute]
        exact VisitMode.value_cases mode
      · intro e he
        cases mode with
        | direct =>
          rw [executeSession_direct_engine] at he
          exact Option.noConfusion he
        | search =>
          rw [hroute]
          rfl
      · intro hs
        cases mode with
        | direct =>
          constructor
          · intro hc
            rw [hroute] at hc
            exact absurd hc (by decide)
          · intro hc
            rw [executeSession_direct_engine] at hc
            exact absurd rfl hc
        | search =>
          constructor
          · intro _
            exact executeSession_search_success_engine _ _ _ hs
          · intro _
            rw [hroute]
            rfl
    · refine ⟨VisitMode.value_cases mode, ⟨mode, rfl, rfl⟩, ?_, ?_⟩
      · intro e he
        exact Option.noConfusion he
      · intro hs
        exact Bool.noConfusion hs
    · refine ⟨VisitMode.value_cases mode, ⟨mode, rfl, rfl⟩, ?_, ?_⟩
      · intro e he
        exact Option.noConfusion he
      · intro hs
        exact Bool.noConfusion hs

/-- C2 witness: the invariant instantiated at a clean direct-route session
over the default configuration. -/
theorem route_and_engine_invariant_witness :
    (okDirectRecord.web_route = "direct" ∨ okDirectRecord.web_route = "search") ∧
    (∃ mode, weightedChoice (routeTable defaultConfig) directOkAttempt.modePick =
        some mode ∧ okDirectRecord.web_route = mode.value) ∧
    (∀ e, okDirectRecord.search_engine = some e →
      okDirectRecord.web_route = "search") ∧
    (okDirectRecord.success = true →
      (okDirectRecord.web_route = "search" ↔ okDirectRecord.search_engine ≠ none)) :=
  route_and_engine_invariant defaultConfig 1 10 "chromium" 0
    (fun _ => directOkAttempt) okDirectRecord 1 rfl

/-- C4 amended: after the click, the routine returns the final page URL, and
the fallback navigation to the captured href runs exactly when the landed URL
still contains the search-engine domain and the captured href is truthy; a
landed URL failing the destination-domain verification while off the engine
domain is returned unchanged. -/
theorem click_fallback_condition (d ed engineName q : String)
    (elems : List DomElem) (nav : NavEnv) (link : DomElem)
    (hfind : findTargetLink d ed elems = some link)
    (hclick : nav.clickError = none) :
    findAndClickTargetLink d ed engineName q elems nav =
      .ok (if pyIn ed nav.landedUrl && truthyOptStr link.href then
        nav.gotoResult.getD nav.landedUrl
      else nav.landedUrl) := by
  have hinner : findAndClickInner d ed engineName q elems nav =
      .ok (if pyIn ed nav.landedUrl && truthyOptStr link.href then
        nav.gotoResult.getD nav.landedUrl
      else nav.landedUrl) := by
    unfold findAndClickInner
    rw [hfind, hclick]
    cases hcond : pyIn ed nav.landedUrl && truthyOptStr link.href <;>
      rcases nav.gotoResult with _ | u <;> simp [hcond]
  unfold findAndClickTargetLink
  rw [hinner]

/-- C4 witness: landing still on the engine domain with a captured href, the
fallback runs and the navigation result is returned. -/
theorem click_fallback_condition_witness :
    findAndClickTargetLink "thebusinesshack.com" "bing.com" "Bing"
      "business hack thebusinesshack.com" [targetAnchor] onEngineNav =
      .ok (if pyIn "bing.com" onEngineNav.landedUrl &&
            truthyOptStr targetAnchor.href then
        onEngineNav.gotoResult.getD onEngineNav.landedUrl
      else onEngineNav.landedUrl) :=
  click_fallback_condition "thebusinesshack.com" "bing.com" "Bing"
    "business hack thebusinesshack.com" [targetAnchor] onEngineNav targetAnchor
    rfl rfl

/-- C4 counterexample: the click lands on a page whose URL contains neither
the destination domain nor the engine domain; the href was captured and the
domain verification fails, yet no fallback navigation happens and the
off-domain landed URL is returned as the result. -/
theorem click_no_fallback_off_engine :
    findTargetLink "thebusinesshack.com" "bing.com" [targetAnchor] =
      some targetAnchor ∧
    truthyOptStr targetAnchor.href = true ∧
    findAndClickTargetLink "thebusinesshack.com" "bing.com" "Bing"
      "business hack thebusinesshack.com" [targetAnchor] offEngineNav =
      .ok "https://consent.example.com/interstitial" ∧
    pyIn "thebusinesshack.com" "https://consent.example.com/interstitial" = false ∧
    offEngineNav.gotoResult = some "https://www.thebusinesshack.com/hire-a-pro-france" :=
  ⟨rfl, rfl, rfl, rfl, rfl⟩

/-- C5: a search-route session in which no result link matching the
destination domain is found is recorded as failed at once with the raised
reason text, after exactly one attempt and hence one browser launch; no
retry with another proxy happens. -/
theorem link_not_found_single_attempt (cfg : BotConfig)
    (sessionNum totalSessions : Nat) (browser : String) (ts : Nat)
    (attempts : Nat → AttemptEnv) (env : ExecEnv) (msg : String)
    (hmode : weightedChoice (routeTable cfg) (attempts 0).modePick =
      some VisitMode.search)
    (houtcome : (attempts 0).outcome = .completed env)
    (hlaunch : env.launchError = none)
    (hsearch : visitViaSearch cfg.target_sites env.searchEnv = .error msg)
    (hnf : pyIn "not found in" msg = true) :
    runSingleSession cfg sessionNum totalSessions browser ts attempts =
      .ok (executeSession cfg.target_sites VisitMode.search
        (initialResult sessionNum totalSessions browser VisitMode.search ts) env, 1) ∧
    (executeSession cfg.target_sites VisitMode.search
      (initialResult sessionNum totalSessions browser VisitMode.search ts) env).success
        = false ∧
    (executeSession cfg.target_sites VisitMode.search
      (initialResult sessionNum totalSessions browser VisitMode.search ts) env).failure_reason
        = some msg ∧
    (executeSession cfg.target_sites VisitMode.search
      (initialResult sessionNum totalSessions browser VisitMode.search ts) env).web_route
        = "search" := by
  have hexec := executeSession_search_error cfg.target_sites
    (initialResult sessionNum totalSessions browser VisitMode.search ts) env msg
    hlaunch hsearch
  refine ⟨?_, ?_, ?_, ?_⟩
  · apply (runSingleSession_ok_iff cfg sessionNum totalSessions browser ts
      attempts _ 1).mpr
    refine ⟨?_, rfl⟩
    unfold sessionAttemptBody
    rw [hmode, houtcome]
  · simp [hexec]
  · simp [hexec]
  · rw [executeSession_web_route]
    rfl

/-- C5 witness: over the default configuration, draw 50 selects the search
route, the empty result page raises the not-found failure, and the session
ends failed after exactly one attempt. -/
theorem link_not_found_single_attempt_witness :
    runSingleSession defaultConfig 1 5 "firefox" 0 (fun _ => linkNotFoundAttempt) =
      .ok (linkNotFoundRecord, 1) ∧
    linkNotFoundRecord.success = false ∧
    linkNotFoundRecord.failure_reason = some linkNotFoundText ∧
    linkNotFoundRecord.web_route = "search" :=
  link_not_found_single_attempt defaultConfig 1 5 "firefox" 0
    (fun _ => linkNotFoundAttempt) linkNotFoundEnv linkNotFoundText
    rfl rfl rfl rfl rfl

end Bot
